import Mathlib

/-!
Verification of the `ai-reading-list-backend` summarization service
(`src/main.py`): a Flask app with a single endpoint `POST /summarize`
that scrapes paragraph text from a URL, truncates it to 1500 words, and
forwards it to a generative-text model.

Python strings are embedded as `List Char` (`PyStr`).  External effects
(the outbound HTTP fetch, the HTML parse, the generative-model call, the
JSON parse of the request body) are oracles supplied as parameters, so
the functions below are the deterministic residue of `main.py` once
those outcomes are fixed.
-/

/-- Python `str` embedded as a list of characters. -/
abbrev PyStr : Type := List Char

/-- Coerce a Lean string literal into the embedding. -/
def pys (s : String) : PyStr := s.data

/-- Python `' '.join(xs)`: concatenate with a single separator between
consecutive elements (no leading/trailing separator). -/
def pyJoin (sep : PyStr) : List PyStr → PyStr
  | [] => []
  | [t] => t
  | t :: t' :: ts => t ++ sep ++ pyJoin sep (t' :: ts)

/-- Helper for `pySplit`: `acc` holds the current in-progress word,
reversed.  Mirrors the scanning behaviour of Python `str.split()` with
no argument: whitespace runs separate words and produce no empty words. -/
def pySplitAux : List Char → List Char → List PyStr
  | [], acc => if acc.isEmpty then [] else [acc.reverse]
  | c :: cs, acc =>
    if c.isWhitespace then
      if acc.isEmpty then pySplitAux cs []
      else acc.reverse :: pySplitAux cs []
    else pySplitAux cs (c :: acc)

/-- Python `s.split()` (no argument): split on runs of whitespace,
discarding leading, trailing and repeated whitespace. -/
def pySplit (s : PyStr) : List PyStr := pySplitAux s []

/-- A JSON value as produced by Flask `request.get_json()` /
Python `json.loads` (objects are association lists with distinct keys). -/
inductive Json where
  | null : Json
  | bool (b : Bool) : Json
  | num (n : Int) : Json
  | str (s : PyStr) : Json
  | arr (elems : List Json) : Json
  | obj (kvs : List (PyStr × Json)) : Json

/-- Python truthiness of a JSON value (`if not data` in the handler):
`None`, `False`, `0`, `""`, `[]` and `{}` are falsy. -/
def Json.truthy : Json → Bool
  | .null => false
  | .bool b => b
  | .num n => n != 0
  | .str s => !s.isEmpty
  | .arr elems => !elems.isEmpty
  | .obj kvs => !kvs.isEmpty

/-- Does `needle` start `hay`?  (Python `str.startswith`, used below to
model substring membership.) -/
def startsWith : PyStr → PyStr → Bool
  | _, [] => true
  | [], _ :: _ => false
  | a :: as, b :: bs => a == b && startsWith as bs

/-- Does `hay` contain `needle` as a contiguous subsequence?
(Python `needle in hay` on strings.) -/
def containsSeq : PyStr → PyStr → Bool
  | [], needle => needle.isEmpty
  | h :: t, needle => startsWith (h :: t) needle || containsSeq t needle

/-- Python `"url" in data` on a JSON value: key membership for a dict,
substring test for a string, element equality for a list; a `TypeError`
(modelled as `.error ()`) for `None`, booleans and numbers. -/
def Json.containsUrl : Json → Except Unit Bool
  | .obj kvs => .ok (kvs.any (fun kv => kv.1 == pys "url"))
  | .str s => .ok (containsSeq s (pys "url"))
  | .arr elems =>
    .ok (elems.any (fun v => match v with
      | .str s => s == pys "url"
      | _ => false))
  | _ => .error ()

/-- Python `data["url"]`: dict lookup (a `KeyError` when absent), and a
`TypeError` (modelled as `.error ()`) on any non-dict value. -/
def Json.getUrl : Json → Except Unit Json
  | .obj kvs =>
    match kvs.lookup (pys "url") with
    | some v => .ok v
    | none => .error ()
  | _ => .error ()

/-- The parsed `<p>` contents of a fetched response body: either the
parse raises (caught by the handler's generic `except Exception`), or it
yields the `get_text(strip=True)` of each `<p>` tag in document order. -/
inductive HtmlBody where
  | unparseable : HtmlBody
  | paragraphs (ps : List PyStr) : HtmlBody

/-- Outcome of `requests.get(url, ...)`: either a
`requests.exceptions.RequestException` (DNS failure, timeout,
connection reset, invalid URL) or a response with an HTTP status code
and a body. -/
inductive FetchOutcome where
  | exn : FetchOutcome
  | resp (status : Nat) (body : HtmlBody) : FetchOutcome

/-- The network oracle: the fetch outcome for each URL string. -/
abbrev Net : Type := PyStr → FetchOutcome

/-- `requests.get` applied to the JSON value extracted from the request:
`requests` coerces the URL with `str()` and raises `MissingSchema` (a
`RequestException`) when the result has no URL scheme, which is the case
for the empty string and for every non-string JSON value. -/
def requests_get (net : Net) : Json → FetchOutcome
  | .str s => if s.isEmpty then .exn else net s
  | _ => .exn

/-- The exceptions distinguished by the two `except` clauses of
`scrape_article_text`. -/
inductive ScrapeExn where
  | requestException : ScrapeExn
  | otherException : ScrapeExn

/-- `max_words = 1500` in `scrape_article_text`. -/
def max_words : Nat := 1500

/-- The extraction step of `scrape_article_text` on the parsed
paragraph texts: `' '.join(texts)` followed by
`' '.join(text.split()[:max_words])`. -/
def extract (ps : List PyStr) : PyStr :=
  let text := pyJoin (pys " ") ps
  pyJoin (pys " ") ((pySplit text).take max_words)

/-- The body of the `try` block of `scrape_article_text`: fetch,
`raise_for_status()` (raises `HTTPError`, a `RequestException`, for
status codes in [400, 600)), parse, extract. -/
def scrape_body (net : Net) (url : Json) : Except ScrapeExn PyStr :=
  match requests_get net url with
  | .exn => .error .requestException
  | .resp status body =>
    if 400 ≤ status ∧ status < 600 then .error .requestException
    else
      match body with
      | .unparseable => .error .otherException
      | .paragraphs ps => .ok (extract ps)

/-- `scrape_article_text`: both `except` clauses return the empty
string, so every exception inside the `try` block is absorbed. -/
def scrape_article_text (net : Net) (url : Json) : PyStr :=
  match scrape_body net url with
  | .error _ => []
  | .ok t => t

/-- Outcome of `model.generate_content(prompt)` followed by
`response.text`: either some exception (API error, blocked response) or
the generated text. -/
inductive GenOutcome where
  | exn : GenOutcome
  | ok (text : PyStr) : GenOutcome

/-- Outcome of `request.get_json()`: raises (malformed body, wrong or
missing content type under Flask ≥ 2.1) or returns a parsed value. -/
inductive GetJsonOutcome where
  | fails : GetJsonOutcome
  | ok (data : Json) : GetJsonOutcome

/-- The external circumstances of one request: the parsed body, the
network, and the generative model (keyed by model name and prompt). -/
structure RequestWorld where
  json : GetJsonOutcome
  net : Net
  gen : PyStr → PyStr → GenOutcome

/-- A Flask response: status code and `jsonify`d body. -/
structure HttpResponse where
  status : Nat
  body : Json

/-- Response body `{"error": msg}`. -/
def errBody (msg : String) : Json := Json.obj [(pys "error", Json.str (pys msg))]

/-- Response body `{"summary": s}`. -/
def summaryBody (s : PyStr) : Json := Json.obj [(pys "summary", Json.str s)]

/-- Truthiness of `gemini_api_key` (`os.environ.get` yields `None` when
the variable is unset; an empty string is also falsy). -/
def truthyKey : Option PyStr → Bool
  | none => false
  | some s => !s.isEmpty

/-- The statically chosen model identifier (`model_name_to_use`). -/
def model_name_to_use : PyStr := pys "models/gemini-pro-latest"

/-- The fixed prompt template applied to the scraped article text. -/
def promptFor (article_text : PyStr) : PyStr :=
  pys "Summarize the following article text in 3 concise bullet points:\n\n" ++ article_text

/-- The whitespace-delimited tokens of the joined paragraph texts
(`text.split()` applied to `' '.join(paragraph texts)`). -/
def paragraphTokens (ps : List PyStr) : List PyStr :=
  pySplit (pyJoin (pys " ") ps)

/-- Modelled from the spec: "all paragraph text joined by single spaces
with internal whitespace runs collapsed to single spaces"
(the specification's description of the extracted text, stated
independently of the code of `scrape_article_text`). -/
def normalizedParagraphJoin (ps : List PyStr) : PyStr :=
  pyJoin (pys " ") (paragraphTokens ps)

/-- The `/summarize` handler.  The whole body sits in one
`try`/`except Exception` that maps any uncaught exception (including the
`BadRequest` raised by `get_json()` on an unparseable body and the
`TypeError`/`KeyError` from the membership test and the indexing) to a
500 with a generic message.  Otherwise: missing/falsy data or missing
`"url"` key gives 400 `No URL provided`; empty scraped text gives 400
`Could not scrape text from URL`; a falsy API key gives 500
`AI API key not configured on server`; then the model is invoked on the
fixed prompt and its text is returned unmodified with status 200. -/
def summarize (gemini_api_key : Option PyStr) (w : RequestWorld) : HttpResponse :=
  match w.json with
  | .fails => ⟨500, errBody "An internal server error occurred"⟩
  | .ok data =>
    if !data.truthy then ⟨400, errBody "No URL provided"⟩
    else
      match data.containsUrl with
      | .error _ => ⟨500, errBody "An internal server error occurred"⟩
      | .ok false => ⟨400, errBody "No URL provided"⟩
      | .ok true =>
        match data.getUrl with
        | .error _ => ⟨500, errBody "An internal server error occurred"⟩
        | .ok url =>
          let article_text := scrape_article_text w.net url
          if article_text.isEmpty then ⟨400, errBody "Could not scrape text from URL"⟩
          else if !truthyKey gemini_api_key then
            ⟨500, errBody "AI API key not configured on server"⟩
          else
            match w.gen model_name_to_use (promptFor article_text) with
            | .exn => ⟨500, errBody "An internal server error occurred"⟩
            | .ok t => ⟨200, summaryBody t⟩

/-! ## Lemmas about `pySplit` and `pyJoin` -/

/-- Scanning a whitespace-free block just accumulates it. -/
theorem pySplitAux_word (t : List Char) (hw : ∀ c ∈ t, ¬ c.isWhitespace) :
    ∀ (cs acc : List Char), pySplitAux (t ++ cs) acc = pySplitAux cs (t.reverse ++ acc) := by
  induction t with
  | nil => intro cs acc; simp
  | cons c t ih =>
    intro cs acc
    have hc : ¬ c.isWhitespace = true := hw c (List.mem_cons_self c t)
    have ht : ∀ x ∈ t, ¬ x.isWhitespace := fun x hx => hw x (List.mem_cons_of_mem c hx)
    show pySplitAux (c :: (t ++ cs)) acc = _
    rw [pySplitAux, if_neg hc, ih ht cs (c :: acc)]
    simp

/-- A single nonempty whitespace-free word splits to itself. -/
theorem pySplit_word (t : List Char) (hne : t ≠ []) (hw : ∀ c ∈ t, ¬ c.isWhitespace) :
    pySplit t = [t] := by
  have h := pySplitAux_word t hw [] []
  simp only [List.append_nil] at h
  rw [pySplit, h, pySplitAux]
  simp [hne]

/-- Splitting a word followed by a space peels off the word. -/
theorem pySplit_word_space (t : List Char) (rest : List Char) (hne : t ≠ [])
    (hw : ∀ c ∈ t, ¬ c.isWhitespace) :
    pySplit (t ++ ' ' :: rest) = t :: pySplit rest := by
  rw [pySplit, pySplitAux_word t hw (' ' :: rest) []]
  rw [pySplitAux]
  simp [hne, pySplit]

/-- `split` is a left inverse of `' '.join` on lists of nonempty
whitespace-free words. -/
theorem pySplit_pyJoin (l : List PyStr)
    (h : ∀ t ∈ l, t ≠ [] ∧ ∀ c ∈ t, ¬ c.isWhitespace) :
    pySplit (pyJoin (pys " ") l) = l := by
  induction l with
  | nil => rfl
  | cons t l ih =>
    cases l with
    | nil =>
      have ht := h t (by simp)
      simpa [pyJoin] using pySplit_word t ht.1 ht.2
    | cons t' ts =>
      have ht := h t (by simp)
      have hmem : ∀ x ∈ t' :: ts, x ≠ [] ∧ ∀ c ∈ x, ¬ c.isWhitespace :=
        fun x hx => h x (List.mem_cons_of_mem t hx)
      have hjoin : pyJoin (pys " ") (t :: t' :: ts) = t ++ ' ' :: pyJoin (pys " ") (t' :: ts) :=
        List.append_assoc t (pys " ") (pyJoin (pys " ") (t' :: ts))
      rw [hjoin, pySplit_word_space t _ ht.1 ht.2, ih hmem]

/-- Every word produced by the split scanner is nonempty and
whitespace-free, provided the accumulator is whitespace-free. -/
theorem pySplitAux_tokens : ∀ (cs acc : List Char), (∀ c ∈ acc, ¬ c.isWhitespace) →
    ∀ t ∈ pySplitAux cs acc, t ≠ [] ∧ ∀ c ∈ t, ¬ c.isWhitespace := by
  intro cs
  induction cs with
  | nil =>
    intro acc hacc t ht
    rw [pySplitAux] at ht
    by_cases he : acc.isEmpty
    · simp [he] at ht
    · rw [if_neg he] at ht
      simp only [List.mem_singleton] at ht
      subst ht
      refine ⟨?_, fun c hc => hacc c (List.mem_reverse.mp hc)⟩
      simp only [List.isEmpty_iff] at he
      simpa using he
  | cons c cs ih =>
    intro acc hacc t ht
    rw [pySplitAux] at ht
    by_cases hw : c.isWhitespace
    · rw [if_pos hw] at ht
      by_cases he : acc.isEmpty
      · rw [if_pos he] at ht
        exact ih [] (by simp) t ht
      · rw [if_neg he] at ht
        rcases List.mem_cons.mp ht with hh | hh
        · subst hh
          refine ⟨?_, fun x hx => hacc x (List.mem_reverse.mp hx)⟩
          simp only [List.isEmpty_iff] at he
          simpa using he
        · exact ih [] (by simp) t hh
    · rw [if_neg hw] at ht
      refine ih (c :: acc) ?_ t ht
      intro x hx
      rcases List.mem_cons.mp hx with hh | hh
      · subst hh; exact hw
      · exact hacc x hh

/-- Every word produced by `pySplit` is nonempty and whitespace-free. -/
theorem pySplit_tokens (s : PyStr) :
    ∀ t ∈ pySplit s, t ≠ [] ∧ ∀ c ∈ t, ¬ c.isWhitespace :=
  pySplitAux_tokens s [] (by simp)

/-- Splitting the extracted text recovers exactly the first
`max_words` tokens of the joined paragraph text. -/
theorem pySplit_extract (ps : List PyStr) :
    pySplit (extract ps) = (paragraphTokens ps).take max_words :=
  pySplit_pyJoin _ (fun t ht => pySplit_tokens _ t (List.take_subset _ _ ht))

/-- The extracted text never holds more than `max_words` tokens. -/
theorem extract_word_bound (ps : List PyStr) :
    (pySplit (extract ps)).length ≤ max_words := by
  rw [pySplit_extract, List.length_take]
  exact inf_le_left

/-- Two `{"error": ...}` bodies agree only when their messages do. -/
theorem errBody_inj (a b : String) (h : errBody a = errBody b) : pys a = pys b := by
  simpa [errBody] using h

/-! ## Claims -/

/-- Claim C3: for paragraph text totalling at most 1500
whitespace-delimited tokens the extracted text is the single-space,
whitespace-normalized join of all paragraph texts in document order;
beyond 1500 tokens it is exactly the first 1500 tokens rejoined with
single spaces. -/
theorem extract_matches_spec (ps : List PyStr) :
    ((paragraphTokens ps).length ≤ 1500 → extract ps = normalizedParagraphJoin ps)
    ∧ (1500 < (paragraphTokens ps).length →
        extract ps = pyJoin (pys " ") ((paragraphTokens ps).take 1500)) := by
  constructor
  · intro h
    simp only [extract, normalizedParagraphJoin, paragraphTokens, max_words] at h ⊢
    rw [List.take_of_length_le h]
  · intro _
    rfl

/-- Witness for C3 on the spec's own end-to-end example document. -/
theorem extract_matches_spec_witness :
    extract [pys "Hello world.", pys "Second paragraph."]
      = normalizedParagraphJoin [pys "Hello world.", pys "Second paragraph."] :=
  (extract_matches_spec [pys "Hello world.", pys "Second paragraph."]).1 (by decide)

/-- Claim C8: for every network and URL, the article text returned by
`scrape_article_text` holds at most 1500 whitespace-delimited words. -/
theorem scrape_article_text_word_bound (net : Net) (url : Json) :
    (pySplit (scrape_article_text net url)).length ≤ 1500 := by
  unfold scrape_article_text scrape_body
  cases requests_get net url with
  | exn => simp [pySplit, pySplitAux]
  | resp status body =>
    cases body with
    | unparseable =>
      by_cases h4 : 400 ≤ status ∧ status < 600
      · simp [h4, pySplit, pySplitAux]
      · simp [h4, pySplit, pySplitAux]
    | paragraphs ps =>
      by_cases h4 : 400 ≤ status ∧ status < 600
      · simp [h4, pySplit, pySplitAux]
      · simpa [h4, max_words] using extract_word_bound ps

/-- Claim C9: `scrape_article_text` returns a plain string for every
URL: whenever the body of its `try` block raises (any fetch, HTTP-status
or parse failure), the result is the empty string, and on a normal
return the body's value is passed through unchanged. -/
theorem scrape_article_text_total (net : Net) (url : Json) :
    (∀ e, scrape_body net url = .error e → scrape_article_text net url = [])
    ∧ (∀ t, scrape_body net url = .ok t → scrape_article_text net url = t) := by
  constructor
  · intro e he
    unfold scrape_article_text
    rw [he]
  · intro t ht
    unfold scrape_article_text
    rw [ht]

/-- Witness for C9: a transport failure yields the empty string. -/
theorem scrape_article_text_total_witness :
    scrape_article_text (fun _ => FetchOutcome.exn) (Json.str (pys "http://example.com")) = [] :=
  (scrape_article_text_total (fun _ => FetchOutcome.exn)
    (Json.str (pys "http://example.com"))).1 ScrapeExn.requestException rfl

/-- Claim C4: when the fetch raises a transport-level
`RequestException` or the server answers with a 4xx/5xx status, the
handler responds 400 with the scrape-error body. -/
theorem fetch_failure_gives_scrape_error (key : Option PyStr) (data url : Json)
    (net : Net) (gen : PyStr → PyStr → GenOutcome)
    (h1 : data.truthy = true) (h2 : data.containsUrl = .ok true)
    (h3 : data.getUrl = .ok url)
    (h4 : requests_get net url = .exn ∨
      ∃ status body, requests_get net url = .resp status body ∧ 400 ≤ status ∧ status < 600) :
    summarize key ⟨.ok data, net, gen⟩ = ⟨400, errBody "Could not scrape text from URL"⟩ := by
  have hempty : scrape_article_text net url = [] := by
    unfold scrape_article_text scrape_body
    rcases h4 with h | ⟨status, body, h, hlo, hhi⟩
    · rw [h]
    · rw [h]
      simp [hlo, hhi]
  simp [summarize, h1, h2, h3, hempty]

/-- Witness for C4: a DNS-style failure on a concrete request. -/
theorem fetch_failure_gives_scrape_error_witness :
    summarize (some (pys "key"))
      ⟨.ok (Json.obj [(pys "url", Json.str (pys "http://x"))]),
        fun _ => FetchOutcome.exn, fun _ _ => GenOutcome.exn⟩
      = ⟨400, errBody "Could not scrape text from URL"⟩ :=
  fetch_failure_gives_scrape_error (some (pys "key")) _ _ _ _ rfl rfl rfl (Or.inl rfl)

/-- Claim C6: a successfully fetched document with no paragraph tags
extracts to the empty string, and the handler then answers 400 with the
scrape-error body for every generative model (no summarizer call). -/
theorem no_paragraphs_gives_scrape_error (key : Option PyStr) (data : Json) (s : PyStr)
    (net : Net) (gen : PyStr → PyStr → GenOutcome) (status : Nat)
    (h1 : data.truthy = true) (h2 : data.containsUrl = .ok true)
    (h3 : data.getUrl = .ok (Json.str s)) (hs : s.isEmpty = false)
    (hnet : net s = .resp status (HtmlBody.paragraphs []))
    (hst : ¬ (400 ≤ status ∧ status < 600)) :
    extract [] = []
    ∧ summarize key ⟨.ok data, net, gen⟩ = ⟨400, errBody "Could not scrape text from URL"⟩ := by
  have hempty : scrape_article_text net (Json.str s) = [] := by
    unfold scrape_article_text scrape_body requests_get
    simp [hs, hnet, hst, extract, pySplit, pySplitAux, pyJoin]
  exact ⟨rfl, by simp [summarize, h1, h2, h3, hempty]⟩

/-- Witness for C6: a paragraph-free page on a concrete request. -/
theorem no_paragraphs_gives_scrape_error_witness :
    summarize (some (pys "key"))
      ⟨.ok (Json.obj [(pys "url", Json.str (pys "http://x"))]),
        fun _ => FetchOutcome.resp 200 (HtmlBody.paragraphs []), fun _ _ => GenOutcome.exn⟩
      = ⟨400, errBody "Could not scrape text from URL"⟩ :=
  (no_paragraphs_gives_scrape_error (some (pys "key"))
    (Json.obj [(pys "url", Json.str (pys "http://x"))]) (pys "http://x")
    (fun _ => FetchOutcome.resp 200 (HtmlBody.paragraphs [])) (fun _ _ => GenOutcome.exn) 200
    rfl rfl rfl rfl rfl (by decide)).2

/-- Claim C7: on the success path the model is invoked with the static
identifier `models/gemini-pro-latest` and exactly the fixed prompt
template applied to the scraped text, and its output is returned
unmodified as a 200 `{"summary": ...}`. -/
theorem success_path (key : Option PyStr) (data url : Json)
    (net : Net) (gen : PyStr → PyStr → GenOutcome) (t : PyStr)
    (h1 : data.truthy = true) (h2 : data.containsUrl = .ok true)
    (h3 : data.getUrl = .ok url)
    (hscrape : (scrape_article_text net url).isEmpty = false)
    (hkey : truthyKey key = true)
    (hgen : gen model_name_to_use (promptFor (scrape_article_text net url)) = .ok t) :
    summarize key ⟨.ok data, net, gen⟩ = ⟨200, summaryBody t⟩ := by
  simp [summarize, h1, h2, h3, hscrape, hkey, hgen]

/-- Witness for C7: the spec's end-to-end example request. -/
theorem success_path_witness :
    summarize (some (pys "key"))
      ⟨.ok (Json.obj [(pys "url", Json.str (pys "http://example.com/article"))]),
        fun _ => FetchOutcome.resp 200
          (HtmlBody.paragraphs [pys "Hello world.", pys "Second paragraph."]),
        fun _ _ => GenOutcome.ok (pys "- bullet summary")⟩
      = ⟨200, summaryBody (pys "- bullet summary")⟩ :=
  success_path (some (pys "key")) _ _ _ _ _ rfl rfl rfl (by decide) (by decide) rfl

/-- Claim C10: a request whose body binds `"url"` to the empty string
passes validation (the membership test succeeds, so the no-URL rejection
is not taken); `requests.get("")` then raises `MissingSchema`, so the
response is 400 with the scrape-error body, not the validation body. -/
theorem empty_url_gives_scrape_error (key : Option PyStr) (data : Json)
    (net : Net) (gen : PyStr → PyStr → GenOutcome)
    (h1 : data.truthy = true) (h2 : data.containsUrl = .ok true)
    (h3 : data.getUrl = .ok (Json.str [])) :
    summarize key ⟨.ok data, net, gen⟩ = ⟨400, errBody "Could not scrape text from URL"⟩
    ∧ (summarize key ⟨.ok data, net, gen⟩).body ≠ errBody "No URL provided" := by
  have hempty : scrape_article_text net (Json.str []) = [] := rfl
  have hmain : summarize key ⟨.ok data, net, gen⟩
      = ⟨400, errBody "Could not scrape text from URL"⟩ := by
    simp [summarize, h1, h2, h3, hempty]
  refine ⟨hmain, ?_⟩
  rw [hmain]
  intro hcontra
  exact absurd (errBody_inj _ _ hcontra) (by decide)

/-- Witness for C10: the concrete request `{"url": ""}`. -/
theorem empty_url_gives_scrape_error_witness :
    summarize (some (pys "key"))
      ⟨.ok (Json.obj [(pys "url", Json.str [])]),
        fun _ => FetchOutcome.resp 200 (HtmlBody.paragraphs [pys "Hello"]),
        fun _ _ => GenOutcome.exn⟩
      = ⟨400, errBody "Could not scrape text from URL"⟩ :=
  (empty_url_gives_scrape_error (some (pys "key"))
    (Json.obj [(pys "url", Json.str [])])
    (fun _ => FetchOutcome.resp 200 (HtmlBody.paragraphs [pys "Hello"]))
    (fun _ _ => GenOutcome.exn) rfl rfl rfl).1

/-- Counterexample to claim C1 as stated: with no API key configured
and a well-formed `{"url": ...}` request whose fetch fails, the
response is the 400 scrape error, not the 500 configuration error —
the key check sits after the scrape check in the handler. -/
theorem no_key_scrape_failure_counterexample :
    summarize none
      ⟨.ok (Json.obj [(pys "url", Json.str (pys "http://example.com/article"))]),
        fun _ => FetchOutcome.exn, fun _ _ => GenOutcome.exn⟩
      = ⟨400, errBody "Could not scrape text from URL"⟩
    ∧ (summarize none
        ⟨.ok (Json.obj [(pys "url", Json.str (pys "http://example.com/article"))]),
          fun _ => FetchOutcome.exn, fun _ _ => GenOutcome.exn⟩).status ≠ 500 :=
  ⟨rfl, by decide⟩

/-- Claim C1 (amended): with no API key configured, every well-formed
request whose scrape yields non-empty text gets the 500
configuration-error response, for every network and model. -/
theorem no_key_gives_config_error (key : Option PyStr) (data url : Json)
    (net : Net) (gen : PyStr → PyStr → GenOutcome)
    (hkey : truthyKey key = false)
    (h1 : data.truthy = true) (h2 : data.containsUrl = .ok true)
    (h3 : data.getUrl = .ok url)
    (hscrape : (scrape_article_text net url).isEmpty = false) :
    summarize key ⟨.ok data, net, gen⟩ = ⟨500, errBody "AI API key not configured on server"⟩ := by
  simp [summarize, h1, h2, h3, hscrape, hkey]

/-- Witness for the amended C1 on a concrete scrapable page. -/
theorem no_key_gives_config_error_witness :
    summarize none
      ⟨.ok (Json.obj [(pys "url", Json.str (pys "http://example.com/article"))]),
        fun _ => FetchOutcome.resp 200 (HtmlBody.paragraphs [pys "Hello world."]),
        fun _ _ => GenOutcome.exn⟩
      = ⟨500, errBody "AI API key not configured on server"⟩ :=
  no_key_gives_config_error none
    (Json.obj [(pys "url", Json.str (pys "http://example.com/article"))])
    (Json.str (pys "http://example.com/article"))
    (fun _ => FetchOutcome.resp 200 (HtmlBody.paragraphs [pys "Hello world."]))
    (fun _ _ => GenOutcome.exn) rfl rfl rfl rfl (by decide)

/-- Counterexample to claim C2 as stated: a request whose body cannot
be parsed as JSON makes `get_json()` raise inside the handler's `try`,
and the catch-all `except` answers 500, not 400. -/
theorem malformed_body_counterexample :
    summarize (some (pys "secret"))
      ⟨GetJsonOutcome.fails, fun _ => FetchOutcome.exn, fun _ _ => GenOutcome.exn⟩
      = ⟨500, errBody "An internal server error occurred"⟩
    ∧ (summarize (some (pys "secret"))
        ⟨GetJsonOutcome.fails, fun _ => FetchOutcome.exn, fun _ _ => GenOutcome.exn⟩).status ≠ 400 :=
  ⟨rfl, by decide⟩

/-- Claim C2 (amended): an unparseable body is answered 500 with the
generic internal-error message, while a body that parses to a falsy
value or to a value not containing `"url"` is answered 400 with the
validation message. -/
theorem malformed_or_missing_url_responses (key : Option PyStr) (data : Json)
    (net : Net) (gen : PyStr → PyStr → GenOutcome) :
    (summarize key ⟨GetJsonOutcome.fails, net, gen⟩
      = ⟨500, errBody "An internal server error occurred"⟩)
    ∧ (data.truthy = false →
        summarize key ⟨.ok data, net, gen⟩ = ⟨400, errBody "No URL provided"⟩)
    ∧ (data.containsUrl = .ok false →
        summarize key ⟨.ok data, net, gen⟩ = ⟨400, errBody "No URL provided"⟩) := by
  refine ⟨rfl, fun hf => by simp [summarize, hf], fun hc => ?_⟩
  by_cases ht : data.truthy = true
  · simp [summarize, ht, hc]
  · simp [summarize, ht]

/-- Witness for the amended C2 at concrete requests. -/
theorem malformed_or_missing_url_responses_witness :
    summarize none
      ⟨GetJsonOutcome.fails, fun _ => FetchOutcome.exn, fun _ _ => GenOutcome.exn⟩
      = ⟨500, errBody "An internal server error occurred"⟩
    ∧ summarize none
      ⟨.ok (Json.obj []), fun _ => FetchOutcome.exn, fun _ _ => GenOutcome.exn⟩
      = ⟨400, errBody "No URL provided"⟩ :=
  ⟨(malformed_or_missing_url_responses none (Json.obj [])
      (fun _ => FetchOutcome.exn) (fun _ _ => GenOutcome.exn)).1,
   (malformed_or_missing_url_responses none (Json.obj [])
      (fun _ => FetchOutcome.exn) (fun _ _ => GenOutcome.exn)).2.1 rfl⟩

/-- Counterexample to claim C5 as stated: a request with an absent or
empty body (which `get_json()` cannot parse) is answered 500 with the
generic message, not 400 with `No URL provided`. -/
theorem missing_body_counterexample :
    summarize none
      ⟨GetJsonOutcome.fails, fun _ => FetchOutcome.resp 200 (HtmlBody.paragraphs []),
        fun _ _ => GenOutcome.ok (pys "x")⟩
      = ⟨500, errBody "An internal server error occurred"⟩
    ∧ (summarize none
        ⟨GetJsonOutcome.fails, fun _ => FetchOutcome.resp 200 (HtmlBody.paragraphs []),
          fun _ _ => GenOutcome.ok (pys "x")⟩).status ≠ 400 :=
  ⟨rfl, by decide⟩

/-- Claim C5 (amended): every request whose body parses to a JSON value
lacking the `"url"` field (a falsy value, or one whose membership test
answers no) is answered 400 with body `{"error": "No URL provided"}`. -/
theorem parsed_body_missing_url_gives_400 (key : Option PyStr) (data : Json)
    (net : Net) (gen : PyStr → PyStr → GenOutcome)
    (h : data.truthy = false ∨ data.containsUrl = .ok false) :
    summarize key ⟨.ok data, net, gen⟩ = ⟨400, errBody "No URL provided"⟩ := by
  rcases h with hf | hc
  · simp [summarize, hf]
  · by_cases ht : data.truthy = true
    · simp [summarize, ht, hc]
    · simp [summarize, ht]

/-- Witness for the amended C5: `{"other": null}` lacks `"url"`. -/
theorem parsed_body_missing_url_gives_400_witness :
    summarize (some (pys "key"))
      ⟨.ok (Json.obj [(pys "other", Json.null)]),
        fun _ => FetchOutcome.exn, fun _ _ => GenOutcome.exn⟩
      = ⟨400, errBody "No URL provided"⟩ :=
  parsed_body_missing_url_gives_400 (some (pys "key"))
    (Json.obj [(pys "other", Json.null)])
    (fun _ => FetchOutcome.exn) (fun _ _ => GenOutcome.exn) (Or.inr rfl)
